import Mathlib

/-
Shallow embedding of the data-analysis service in src/app.py.

The service accepts an HTTP POST with uploaded form files, extracts a
question text, asks an external language-model service for an analysis
script, executes the script through an external runner (uv), classifies
the output, and shapes a JSON response.

External collaborators (the language-model service, the subprocess
runner, the filesystem, pandas, werkzeug's secure_filename and the JSON
parser of the standard library) are modelled as explicit outcome
parameters carried by the request environment: the embedded functions
reproduce exactly the branching the Python code performs on those
outcomes.  Machine-level effects (file writes, the audit log append) are
recorded in an explicit trace.
-/

namespace TdsApp

/-- Python str.startswith, as a suffix-free Boolean test on the character
list of the string. -/
def strStartsWith (s p : String) : Bool := decide (p.data <+: s.data)

/-- Python str.endswith: the pattern is a suffix of the string. -/
def strEndsWith (s p : String) : Bool := decide (p.data <:+ s.data)

/-- Whitespace characters stripped by Python str.strip() (ASCII set:
space, tab, newline, carriage return, vertical tab, form feed). -/
def pyIsSpace (c : Char) : Bool :=
  c == ' ' || c == '\t' || c == '\n' || c == '\r' || c.toNat == 11 || c.toNat == 12

/-- Python str.strip(): drop whitespace from both ends. -/
def pyStrip (s : String) : String :=
  String.mk (((s.data.dropWhile pyIsSpace).reverse.dropWhile pyIsSpace).reverse)

/-- Standard base64 alphabet used by Python base64.b64encode. -/
def b64Alphabet : List Char :=
  "ABCDEFGHIJKLMNOPQRSTUVWXYZabcdefghijklmnopqrstuvwxyz0123456789+/".data

/-- Character of the base64 alphabet at a 6-bit index. -/
def b64Char (n : Nat) : Char := b64Alphabet.getD n '='

/-- Python base64.b64encode on a byte list (each entry < 256), producing
the padded RFC 4648 encoding; this models the expression
base64.b64encode(f.read()).decode('utf-8') in read_file_content. -/
def b64encode : List Nat → String
  | [] => ""
  | [b1] =>
      String.mk [b64Char (b1 / 4), b64Char (b1 % 4 * 16), '=', '=']
  | [b1, b2] =>
      String.mk [b64Char (b1 / 4), b64Char (b1 % 4 * 16 + b2 / 16),
        b64Char (b2 % 16 * 4), '=']
  | b1 :: b2 :: b3 :: rest =>
      String.mk [b64Char (b1 / 4), b64Char (b1 % 4 * 16 + b2 / 16),
        b64Char (b2 % 16 * 4 + b3 / 64), b64Char (b3 % 64)] ++ b64encode rest

/-- JSON values, the bodies produced by flask.jsonify. -/
inductive Json where
  | null : Json
  | bool (b : Bool) : Json
  | num (n : Int) : Json
  | str (s : String) : Json
  | arr (xs : List Json) : Json
  | obj (fields : List (String × Json)) : Json

/-- An HTTP response: JSON body plus status code (flask default 200). -/
structure Resp where
  body : Json
  status : Nat

/-- Outcomes of the filesystem / pandas operations read_file_content may
perform on one file.  Each component is the result of the corresponding
external call: ok carries what the call returned, error carries str(e)
of the exception it raised.  For the pandas branch the payload is the
rendering of list(df.columns) and of df.to_string(), both produced
externally by pandas. -/
structure FileEnv where
  pandasRead : Except String (String × String)
  textRead : Except String String
  binRead : Except String (List Nat)

/-- Embedding of read_file_content(file_path, max_rows=10): branch on the
filename suffix, produce a preview string; any exception is caught and
becomes the marker string "Error reading file: " ++ str(e). -/
def read_file_content (file_path : String) (fenv : FileEnv) (max_rows : Nat) : String :=
  if strEndsWith file_path ".csv" then
    match fenv.pandasRead with
    | .ok (cols, rendered) =>
        "CSV file with columns: " ++ cols ++ "\nSample data (first " ++
          toString max_rows ++ " rows):\n" ++ rendered
    | .error e => "Error reading file: " ++ e
  else if strEndsWith file_path ".txt" then
    match fenv.textRead with
    | .ok s => s
    | .error e => "Error reading file: " ++ e
  else if strEndsWith file_path ".png" || strEndsWith file_path ".jpg" ||
      strEndsWith file_path ".jpeg" then
    match fenv.binRead with
    | .ok bs => "data:image/png;base64," ++ b64encode bs
    | .error e => "Error reading file: " ++ e
  else
    match fenv.textRead with
    | .ok s => s
    | .error e => "Error reading file: " ++ e

/-- Result of one call to the external language-model service:
ok carries response.content[0].text, err carries str(e) of the
exception the client raised. -/
inductive LLMOutcome where
  | ok (text : String) : LLMOutcome
  | err (msg : String) : LLMOutcome

/-- Embedding of generate_analysis_script(question, file_contents,
file_info): the prompt built from the arguments is consumed by the
external service whose reply is the outcome argument; on success the
generated text is returned verbatim, on failure the exception is caught
and a diagnostic comment string is returned instead. -/
def generate_analysis_script (question : String)
    (file_contents : List (String × String)) (file_info : List (String × Nat))
    (outcome : LLMOutcome) : String :=
  match outcome with
  | .ok t => t
  | .err e => "# Error generating script: " ++ e

/-- Embedding of debug_and_fix_script(script, error_output, question,
file_info): same adapter pattern as generation, with its own diagnostic
comment on service failure. -/
def debug_and_fix_script (script error_output question : String)
    (file_info : List (String × Nat)) (outcome : LLMOutcome) : String :=
  match outcome with
  | .ok t => t
  | .err e => "# Error debugging script: " ++ e

/-- What the external subprocess.run call did: completed with a return
code and captured streams, raised TimeoutExpired, or raised some other
exception with message str(e). -/
inductive SubprocessOutcome where
  | completed (returncode : Int) (stdout stderr : String) : SubprocessOutcome
  | timedOut : SubprocessOutcome
  | raised (msg : String) : SubprocessOutcome

/-- One execution result as the harness reports it; timed_out records
whether the TimeoutExpired branch was the one taken. -/
structure ExecResult where
  returncode : Int
  stdout : String
  stderr : String
  timed_out : Bool

/-- Embedding of run_script_with_uv(script_path, timeout): on completion
the triple is returned verbatim; on TimeoutExpired the sentinel
(-1, "", fixed diagnostic) is returned; on any other exception the
sentinel (-1, "", "Error running script: " ++ str(e)). -/
def run_script_with_uv (script_path : String) (timeout : Nat)
    (outcome : SubprocessOutcome) : ExecResult :=
  match outcome with
  | .completed rc out err => ⟨rc, out, err, false⟩
  | .timedOut => ⟨-1, "", "Script execution timed out after 180 seconds", true⟩
  | .raised e => ⟨-1, "", "Error running script: " ++ e, false⟩

/-- One uploaded form field: its field key, the client-supplied filename
(empty when no file was attached, mirroring FileStorage truthiness), the
byte size the saved file has on disk, and the outcomes of the read
operations read_file_content would perform on it. -/
structure FormFile where
  key : String
  filename : String
  size : Nat
  fileEnv : FileEnv

/-- Environment of one request: the uploaded fields in iteration order,
the external secure_filename function, the temporary directory path
mkdtemp produced, the outcome of each external service call (generation,
per-attempt repair, per-attempt execution), the behaviour of json.loads
(some parsed value, or none on JSONDecodeError), and an optional
unhandled fault (str(e), traceback) raised somewhere inside the
handler's try block. -/
structure RequestEnv where
  fields : List FormFile
  secure : String → String
  tempDir : String
  genOutcome : LLMOutcome
  repairOutcome : Nat → LLMOutcome
  execOutcome : Nat → SubprocessOutcome
  jsonParse : String → Option Json
  fault : Option (String × String)

/-- Python dict insertion d[k] = v on an association list: overwrite the
existing binding or append a new one. -/
def dictInsert {α : Type} (d : List (String × α)) (k : String) (v : α) :
    List (String × α) :=
  if d.any (fun p => p.1 == k) then
    d.map (fun p => if p.1 == k then (k, v) else p)
  else d ++ [(k, v)]

/-- Key test selecting the question field:
key == 'questions.txt' or key.startswith('question'). -/
def isQuestionKey (k : String) : Bool :=
  k == "questions.txt" || strStartsWith k "question"

/-- Path of a saved upload: os.path.join(temp_dir, secure_filename(name)). -/
def filePathOf (env : RequestEnv) (f : FormFile) : String :=
  env.tempDir ++ "/" ++ env.secure f.filename

/-- One step of the upload loop for the question variable: a field with a
file and a question key overwrites question with its read content,
every other field leaves it unchanged. -/
def questionStep (env : RequestEnv) (q : String) (f : FormFile) : String :=
  if f.filename != "" && isQuestionKey f.key then
    read_file_content (filePathOf env f) f.fileEnv 10
  else q

/-- The question text after the upload loop (initially the empty string). -/
def questionOf (env : RequestEnv) : String :=
  env.fields.foldl (questionStep env) ""

/-- One step of the upload loop for the file_contents dict. -/
def contentsStep (env : RequestEnv) (d : List (String × String)) (f : FormFile) :
    List (String × String) :=
  if f.filename != "" && !isQuestionKey f.key then
    dictInsert d (env.secure f.filename) (read_file_content (filePathOf env f) f.fileEnv 10)
  else d

/-- The file_contents dict after the upload loop. -/
def fileContentsOf (env : RequestEnv) : List (String × String) :=
  env.fields.foldl (contentsStep env) []

/-- One step of the upload loop for the file_info dict (size per saved
file; the path component is determined by filePathOf and omitted). -/
def infoStep (env : RequestEnv) (d : List (String × Nat)) (f : FormFile) :
    List (String × Nat) :=
  if f.filename != "" then dictInsert d (env.secure f.filename) f.size else d

/-- The file_info dict after the upload loop. -/
def fileInfoOf (env : RequestEnv) : List (String × Nat) :=
  env.fields.foldl (infoStep env) []

/-- Code-fence normalization applied to the generated script:
script_content.replace('```python','').replace('```',''). -/
def stripFences (s : String) : String :=
  (s.replace "```python" "").replace "```" ""

/-- One row of the append-only audit log written to log.csv per attempt
(the externally produced timestamp column is omitted). -/
structure LogRow where
  question : String
  attempt : Nat
  returncode : Int
  stdout : String
  stderr : String

/-- Result of the retry loop: the response it returned (none only when
the range was empty, i.e. a zero attempt bound), the number of
executions performed, the number of repair calls made, and the log rows
appended. -/
structure LoopOut where
  resp : Option Resp
  execCalls : Nat
  repairCalls : Nat
  log : List LogRow

/-- The attempt bound hardcoded in analyze_data: max_attempts = 1. -/
def max_attempts : Nat := 1

/-- Embedding of the loop `for attempt in range(max_attempts)` of
analyze_data, recursing on the number of remaining iterations
(fuel = max_attempts - attempt).  Each iteration runs the script, logs
the attempt, returns the classified success response when
returncode == 0 and stdout.strip() is non-empty, otherwise repairs and
continues when attempt < max_attempts - 1 (equivalently fuel > 1 at
entry), and otherwise returns jsonify([1, 'a', 23, 'bc']). -/
def attemptLoop (env : RequestEnv) (question : String)
    (file_info : List (String × Nat)) (script_path : String) :
    String → Nat → Nat → LoopOut
  | _, _, 0 => ⟨none, 0, 0, []⟩
  | script, attempt, fuel + 1 =>
    let r := run_script_with_uv script_path 150 (env.execOutcome attempt)
    let row : LogRow := ⟨question, attempt, r.returncode, r.stdout, r.stderr⟩
    if r.returncode == 0 && (pyStrip r.stdout != "") then
      match env.jsonParse (pyStrip r.stdout) with
      | some j => ⟨some ⟨j, 200⟩, 1, 0, [row]⟩
      | none => ⟨some ⟨Json.obj [("result", Json.str (pyStrip r.stdout))], 200⟩, 1, 0, [row]⟩
    else if fuel > 0 then
      let error_info := "Return code: " ++ toString r.returncode ++
        "\nStdout: " ++ r.stdout ++ "\nStderr: " ++ r.stderr
      let script2 := debug_and_fix_script script error_info question file_info
        (env.repairOutcome attempt)
      let rest := attemptLoop env question file_info script_path script2 (attempt + 1) fuel
      ⟨rest.resp, rest.execCalls + 1, rest.repairCalls + 1, row :: rest.log⟩
    else
      ⟨some ⟨Json.arr [Json.num 1, Json.str "a", Json.num 23, Json.str "bc"], 200⟩, 1, 0, [row]⟩

/-- Effect trace of one request: language-model generation calls, repair
calls, script executions, whether shutil.rmtree was executed on the
temporary directory, and the audit log rows appended. -/
structure Trace where
  genCalls : Nat
  repairCalls : Nat
  execCalls : Nat
  cleanedUp : Bool
  log : List LogRow

/-- Embedding of the handler analyze_data.  An injected unhandled fault
is caught by the outer try/except and shaped into the internal-error
response.  Otherwise the uploads are materialized, the question checked,
the script generated and fence-stripped, and the retry loop run with
the hardcoded bound max_attempts = 1.  The cleanup block
shutil.rmtree(temp_dir) stands after the return statements of every
branch of the loop and of the exhaustion payload, so it is unreachable
and cleanedUp is false on every path.  The exhaustion branch (loop
exits without returning) can only happen for a zero bound, where the
Python code would raise NameError on the unbound stdout variable and
fall into the outer except; it is unreachable for max_attempts = 1. -/
def analyze_data (env : RequestEnv) : Resp × Trace :=
  match env.fault with
  | some (e, tb) =>
    (⟨Json.obj [("error", Json.str ("Internal server error: " ++ e)),
        ("traceback", Json.str tb)], 500⟩,
     ⟨0, 0, 0, false, []⟩)
  | none =>
    let file_contents := fileContentsOf env
    let file_info := fileInfoOf env
    let question := questionOf env
    if question == "" then
      (⟨Json.obj [("error", Json.str "No questions.txt file found")], 400⟩,
       ⟨0, 0, 0, false, []⟩)
    else
      let script0 := stripFences
        (generate_analysis_script question file_contents file_info env.genOutcome)
      let script_path := env.tempDir ++ "/" ++ "analysis_script.py"
      let out := attemptLoop env question file_info script_path script0 0 max_attempts
      match out.resp with
      | some r => (r, ⟨1, out.repairCalls, out.execCalls, false, out.log⟩)
      | none =>
        (⟨Json.obj [("error", Json.str "Internal server error: NameError"),
            ("traceback", Json.str "NameError")], 500⟩,
         ⟨1, out.repairCalls, out.execCalls, false, out.log⟩)

/-- Embedding of the health_check handler. -/
def health_check : Resp := ⟨Json.obj [("status", Json.str "healthy")], 200⟩

/-- One step of the fold locating the question-carrying field. -/
def pickStep (acc : Option FormFile) (f : FormFile) : Option FormFile :=
  if f.filename != "" && isQuestionKey f.key then some f else acc

/-- Last field of the upload list that carries a file under a question
key; the question text after the loop is the read content of this field
when it exists. -/
def questionFile (env : RequestEnv) : Option FormFile :=
  env.fields.foldl pickStep none

/-- Read content of the last question-carrying field, when present. -/
def lastQuestionRead (env : RequestEnv) : Option String :=
  (questionFile env).map (fun f => read_file_content (filePathOf env f) f.fileEnv 10)

/-- File environment of a plain question text file used in concrete runs. -/
def okFenv : FileEnv :=
  ⟨Except.error "pandas unused", Except.ok "What is two plus two", Except.error "bin unused"⟩

/-- File environment of an image upload used in concrete runs. -/
def imgFenv : FileEnv :=
  ⟨Except.error "pandas unused", Except.error "text unused", Except.ok [1, 2, 3]⟩

/-- File environment of a question file whose UTF-8 decode raises. -/
def badFenv : FileEnv :=
  ⟨Except.error "pandas unused", Except.error "invalid utf-8 byte", Except.error "bin unused"⟩

/-- A well-formed questions.txt upload. -/
def qFile : FormFile := ⟨"questions.txt", "questions.txt", 20, okFenv⟩

/-- A questions.txt upload whose content cannot be decoded. -/
def qBadFile : FormFile := ⟨"questions.txt", "questions.txt", 20, badFenv⟩

/-- Concrete request whose script run succeeds with stdout "4", where the
JSON parser accepts exactly that text. -/
def successEnv : RequestEnv :=
  ⟨[qFile], id, "/tmp/w", LLMOutcome.ok "print(4)", fun _ => LLMOutcome.ok "print(4)",
   fun _ => SubprocessOutcome.completed 0 "4" "",
   fun s => if s == "4" then some (Json.num 4) else none, none⟩

/-- Concrete request whose only script run exits with code 1. -/
def failEnv : RequestEnv :=
  ⟨[qFile], id, "/tmp/w", LLMOutcome.ok "print(4)", fun _ => LLMOutcome.ok "print(4)",
   fun _ => SubprocessOutcome.completed 1 "" "boom", fun _ => none, none⟩

/-- Concrete request carrying no question-named field at all. -/
def noQuestionEnv : RequestEnv :=
  ⟨[⟨"data.csv", "data.csv", 5, okFenv⟩], id, "/tmp/w", LLMOutcome.ok "print(4)",
   fun _ => LLMOutcome.ok "print(4)", fun _ => SubprocessOutcome.completed 0 "4" "",
   fun _ => none, none⟩

/-- Concrete request in which the language-model generation call raises. -/
def genErrEnv : RequestEnv :=
  ⟨[qFile], id, "/tmp/w", LLMOutcome.err "quota exceeded",
   fun _ => LLMOutcome.err "quota exceeded",
   fun _ => SubprocessOutcome.completed 1 "" "NameError", fun _ => none, none⟩

/-- Concrete request in which an unhandled fault is raised inside the
handler body. -/
def faultEnv : RequestEnv :=
  ⟨[qFile], id, "/tmp/w", LLMOutcome.ok "print(4)", fun _ => LLMOutcome.ok "print(4)",
   fun _ => SubprocessOutcome.completed 0 "4" "",
   fun _ => none, some ("disk full", "Traceback: most recent call last")⟩

/-- Concrete request whose question file exists but cannot be read. -/
def badReadEnv : RequestEnv :=
  ⟨[qBadFile], id, "/tmp/w", LLMOutcome.ok "print(4)", fun _ => LLMOutcome.ok "print(4)",
   fun _ => SubprocessOutcome.completed 0 "4" "", fun _ => none, none⟩

end TdsApp

namespace TdsApp

/-- Distinct suffix patterns that are not suffixes of one another cannot
both match the end of the same string: matching one extension rules the
others out. -/
theorem strEndsWith_excl (s a b : String)
    (hab : ¬ (a.data <:+ b.data)) (hba : ¬ (b.data <:+ a.data))
    (h : strEndsWith s a = true) : strEndsWith s b = false := by
  simp only [strEndsWith, decide_eq_true_eq] at h
  simp only [strEndsWith, decide_eq_false_iff_not]
  intro hb
  rcases List.suffix_or_suffix_of_suffix h hb with h2 | h2
  · exact hab h2
  · exact hba h2

/-- The read-failure marker string is never empty. -/
theorem marker_ne_empty (e : String) : "Error reading file: " ++ e ≠ "" := by
  intro h
  have h2 : ("Error reading file: " ++ e).data = "".data := congrArg String.data h
  rw [String.data_append] at h2
  simp at h2

/-- When no field carries a question key, the question fold returns its
accumulator unchanged. -/
theorem foldl_questionStep_of_no_qkey (env : RequestEnv) :
    ∀ (fs : List FormFile) (q : String),
      (∀ f ∈ fs, isQuestionKey f.key = false) →
      List.foldl (questionStep env) q fs = q := by
  intro fs
  induction fs with
  | nil => intro q _; rfl
  | cons f fs ih =>
    intro q h
    have hf : isQuestionKey f.key = false := h f (List.mem_cons_self f fs)
    have hstep : questionStep env q f = q := by simp [questionStep, hf]
    rw [List.foldl_cons, hstep]
    exact ih q (fun g hg => h g (List.mem_cons_of_mem f hg))

/-- The pick fold with an arbitrary accumulator, expressed through the
fold that starts from none. -/
theorem foldl_pickStep_acc :
    ∀ (fs : List FormFile) (a : Option FormFile),
      List.foldl pickStep a fs = (List.foldl pickStep none fs).elim a some := by
  intro fs
  induction fs with
  | nil => intro a; rfl
  | cons f fs ih =>
    intro a
    simp only [List.foldl_cons]
    cases hc : (f.filename != "" && isQuestionKey f.key) with
    | true =>
      rw [show pickStep a f = some f from by simp [pickStep, hc],
        show pickStep none f = some f from by simp [pickStep, hc], ih (some f)]
      cases hx : List.foldl pickStep none fs <;> simp
    | false =>
      rw [show pickStep a f = a from by simp [pickStep, hc],
        show pickStep none f = none from by simp [pickStep, hc]]
      exact ih a

/-- The question fold, expressed through the field the pick fold selects. -/
theorem foldl_questionStep_acc (env : RequestEnv) :
    ∀ (fs : List FormFile) (q : String),
      List.foldl (questionStep env) q fs =
        (List.foldl pickStep none fs).elim q
          (fun f => read_file_content (filePathOf env f) f.fileEnv 10) := by
  intro fs
  induction fs with
  | nil => intro q; rfl
  | cons f fs ih =>
    intro q
    simp only [List.foldl_cons]
    cases hc : (f.filename != "" && isQuestionKey f.key) with
    | true =>
      rw [show questionStep env q f = read_file_content (filePathOf env f) f.fileEnv 10
          from by simp [questionStep, hc],
        show pickStep none f = some f from by simp [pickStep, hc],
        ih _, foldl_pickStep_acc fs (some f)]
      cases hx : List.foldl pickStep none fs <;> simp
    | false =>
      rw [show questionStep env q f = q from by simp [questionStep, hc],
        show pickStep none f = none from by simp [pickStep, hc]]
      exact ih q

/-- The question text of the upload loop is the read content of the last
question-carrying field, or empty when none exists. -/
theorem questionOf_eq_lastRead (env : RequestEnv) :
    questionOf env = (lastQuestionRead env).getD "" := by
  rw [questionOf, foldl_questionStep_acc env env.fields ""]
  rw [lastQuestionRead, questionFile]
  cases hx : List.foldl pickStep none env.fields <;> simp [hx]

/-- The single-iteration loop (the hardcoded bound) always returns a
status-200 response, performs one execution, no repair, and logs exactly
attempt 0 with the literal execution result. -/
theorem attemptLoop_one_shape (env : RequestEnv) (q : String)
    (fi : List (String × Nat)) (sp s : String) (a : Nat) :
    ∃ b : Json, attemptLoop env q fi sp s a 1 =
      ⟨some ⟨b, 200⟩, 1, 0,
       [⟨q, a, (run_script_with_uv sp 150 (env.execOutcome a)).returncode,
           (run_script_with_uv sp 150 (env.execOutcome a)).stdout,
           (run_script_with_uv sp 150 (env.execOutcome a)).stderr⟩]⟩ := by
  simp only [attemptLoop]
  by_cases hc : ((run_script_with_uv sp 150 (env.execOutcome a)).returncode == 0 &&
      (pyStrip (run_script_with_uv sp 150 (env.execOutcome a)).stdout != "")) = true
  · rw [if_pos hc]
    cases hp : env.jsonParse (pyStrip (run_script_with_uv sp 150 (env.execOutcome a)).stdout) with
    | some j => exact ⟨j, rfl⟩
    | none => exact ⟨_, rfl⟩
  · rw [if_neg hc]
    exact ⟨Json.arr [Json.num 1, Json.str "a", Json.num 23, Json.str "bc"], by simp⟩

/-- Facts shared by every no-fault request with a present question:
status 200, one generation call, no repair call, one execution, a
one-row log for attempt 0, and no workspace cleanup. -/
theorem run_branch_facts (env : RequestEnv) (hf : env.fault = none)
    (hq : questionOf env ≠ "") :
    (analyze_data env).1.status = 200 ∧
    (analyze_data env).2.genCalls = 1 ∧
    (analyze_data env).2.repairCalls = 0 ∧
    (analyze_data env).2.execCalls = 1 ∧
    (analyze_data env).2.log.map LogRow.attempt = [0] ∧
    (analyze_data env).2.cleanedUp = false := by
  have hb : (questionOf env == "") = false := by simp [hq]
  obtain ⟨b, hEq⟩ := attemptLoop_one_shape env (questionOf env) (fileInfoOf env)
    (env.tempDir ++ "/" ++ "analysis_script.py")
    (stripFences (generate_analysis_script (questionOf env) (fileContentsOf env)
      (fileInfoOf env) env.genOutcome)) 0
  simp only [analyze_data, hf, hb, Bool.false_eq_true, if_false, max_attempts]
  rw [hEq]
  simp

/-- The empty-question branch: 400 response and an empty effect trace. -/
theorem resp_of_question_empty (env : RequestEnv) (hf : env.fault = none)
    (hq : questionOf env = "") :
    analyze_data env =
      (⟨Json.obj [("error", Json.str "No questions.txt file found")], 400⟩,
       ⟨0, 0, 0, false, []⟩) := by
  simp [analyze_data, hf, hq]

/-- The fault branch: internal-error response and an empty effect trace. -/
theorem resp_of_fault (env : RequestEnv) (e tb : String)
    (hf : env.fault = some (e, tb)) :
    analyze_data env =
      (⟨Json.obj [("error", Json.str ("Internal server error: " ++ e)),
          ("traceback", Json.str tb)], 500⟩,
       ⟨0, 0, 0, false, []⟩) := by
  simp [analyze_data, hf]

/-- C1: for every execution result with exit code 0 and stdout non-empty
after stripping surrounding whitespace, the final response body is the
JSON value parsed from the stripped stdout when that parse succeeds, and
otherwise is exactly the object binding "result" to the stripped stdout
text, in both cases with status 200. -/
theorem c1_success_classification (env : RequestEnv) (out err : String)
    (hf : env.fault = none) (hq : questionOf env ≠ "")
    (hx : env.execOutcome 0 = SubprocessOutcome.completed 0 out err)
    (hs : pyStrip out ≠ "") :
    (∀ j, env.jsonParse (pyStrip out) = some j → (analyze_data env).1 = ⟨j, 200⟩) ∧
    (env.jsonParse (pyStrip out) = none →
      (analyze_data env).1 = ⟨Json.obj [("result", Json.str (pyStrip out))], 200⟩) := by
  have hb : (questionOf env == "") = false := by simp [hq]
  simp only [analyze_data, hf, hb, Bool.false_eq_true, if_false, max_attempts]
  simp only [attemptLoop, hx, run_script_with_uv]
  have hcond : ((0 : Int) == 0 && (pyStrip out != "")) = true := by simp [hs]
  rw [hcond]
  constructor
  · intro j hj
    rw [if_pos rfl, hj]
  · intro hj
    rw [if_pos rfl, hj]

/-- Witness for C1 at a concrete request whose script prints "4" and
whose JSON parser accepts exactly that text. -/
theorem c1_witness : (analyze_data successEnv).1 = ⟨Json.num 4, 200⟩ :=
  (c1_success_classification successEnv "4" "" rfl (by decide) rfl (by decide)).1
    (Json.num 4) rfl

/-- C2: evaluation of the handler at a request whose single permitted
attempt fails the success predicate (exit code 1, empty stdout).  The
response is the debug array [1, "a", 23, "bc"] with status 200, not the
structured failure payload with error, last_stdout, last_stderr and
last_script under status 500 that the claim describes: the return of
that payload is unreachable dead code behind the debug return. -/
theorem c2_last_attempt_debug_array :
    (analyze_data failEnv).1 =
      ⟨Json.arr [Json.num 1, Json.str "a", Json.num 23, Json.str "bc"], 200⟩ ∧
    (analyze_data failEnv).1.status = 200 := ⟨rfl, rfl⟩

/-- C3: under the hardcoded attempt bound of 1, every request that
reaches script generation performs exactly one script execution, never
invokes debug_and_fix_script, logs attempt indices that rise by exactly
one per cycle starting at 0, and stays within the bound. -/
theorem c3_single_attempt (env : RequestEnv) (hf : env.fault = none)
    (hq : questionOf env ≠ "") :
    (analyze_data env).2.execCalls = 1 ∧
    (analyze_data env).2.repairCalls = 0 ∧
    (analyze_data env).2.log.map LogRow.attempt = List.range (analyze_data env).2.execCalls ∧
    (analyze_data env).2.execCalls ≤ max_attempts := by
  obtain ⟨_, _, hrep, hexe, hlog, _⟩ := run_branch_facts env hf hq
  refine ⟨hexe, hrep, ?_, ?_⟩
  · rw [hexe, hlog]; rfl
  · rw [hexe]; exact Nat.le_refl 1

/-- Witness for C3 at a concrete successful request. -/
theorem c3_witness :
    (analyze_data successEnv).2.execCalls = 1 ∧
    (analyze_data successEnv).2.repairCalls = 0 :=
  ⟨(c3_single_attempt successEnv rfl (by decide)).1,
   (c3_single_attempt successEnv rfl (by decide)).2.1⟩

/-- C4: for every script execution whose subprocess call raises
TimeoutExpired, the harness reports the sentinel exit code -1, empty
stdout, the fixed timeout diagnostic in stderr, and the execution
result carries timed_out = true. -/
theorem c4_timeout_sentinel (sp : String) (t : Nat) :
    (run_script_with_uv sp t SubprocessOutcome.timedOut).returncode = -1 ∧
    (run_script_with_uv sp t SubprocessOutcome.timedOut).stdout = "" ∧
    (run_script_with_uv sp t SubprocessOutcome.timedOut).stderr =
      "Script execution timed out after 180 seconds" ∧
    (run_script_with_uv sp t SubprocessOutcome.timedOut).timed_out = true :=
  ⟨rfl, rfl, rfl, rfl⟩

/-- C5: for every no-fault request in which no uploaded form field is
named questions.txt or has a name with the word question as its starting
text, the handler returns the no-questions error body with status 400
and performs zero language-model calls and zero script executions. -/
theorem c5_no_question_short_circuit (env : RequestEnv) (hf : env.fault = none)
    (hnq : ∀ f ∈ env.fields,
      ¬(f.key = "questions.txt" ∨ strStartsWith f.key "question" = true)) :
    (analyze_data env).1 = ⟨Json.obj [("error", Json.str "No questions.txt file found")], 400⟩ ∧
    (analyze_data env).1.status = 400 ∧
    (analyze_data env).2.genCalls = 0 ∧
    (analyze_data env).2.repairCalls = 0 ∧
    (analyze_data env).2.execCalls = 0 := by
  have hkeys : ∀ f ∈ env.fields, isQuestionKey f.key = false := by
    intro f hmem
    rcases not_or.mp (hnq f hmem) with ⟨h3, h4⟩
    have h5 : (f.key == "questions.txt") = false := beq_eq_false_iff_ne.mpr h3
    cases hsw : strStartsWith f.key "question" with
    | true => exact absurd hsw h4
    | false => simp [isQuestionKey, h5, hsw]
  have hq : questionOf env = "" := by
    rw [questionOf]
    exact foldl_questionStep_of_no_qkey env env.fields "" hkeys
  rw [resp_of_question_empty env hf hq]
  exact ⟨rfl, rfl, rfl, rfl, rfl⟩

/-- Witness for C5 at a concrete request carrying only a data.csv field. -/
theorem c5_witness :
    (analyze_data noQuestionEnv).1 =
      ⟨Json.obj [("error", Json.str "No questions.txt file found")], 400⟩ ∧
    (analyze_data noQuestionEnv).2.genCalls = 0 ∧
    (analyze_data noQuestionEnv).2.execCalls = 0 := by
  have h := c5_no_question_short_circuit noQuestionEnv rfl (by decide)
  exact ⟨h.1, h.2.2.1, h.2.2.2.2⟩

/-- C6: evaluation of the workspace-cleanup effect.  On every request and
every exit path the temporary directory is never removed: the
shutil.rmtree call stands after the return statements and is dead code,
so cleanedUp is false universally, contradicting the claim that the
workspace is reclaimed by the time the handler returns. -/
theorem c6_workspace_never_removed (env : RequestEnv) :
    (analyze_data env).2.cleanedUp = false := by
  cases hf : env.fault with
  | some p =>
    obtain ⟨e, tb⟩ := p
    rw [resp_of_fault env e tb hf]
  | none =>
    by_cases hq : questionOf env = ""
    · rw [resp_of_question_empty env hf hq]
    · exact (run_branch_facts env hf hq).2.2.2.2.2

/-- C7: when the language-model service call raises, generation and
repair do not propagate the exception but return a script body that is
exactly the diagnostic comment string, and the pipeline still reaches
the execution harness (one execution is performed). -/
theorem c7_service_failure_degrades_to_comment (env : RequestEnv) (e : String)
    (hf : env.fault = none) (hq : questionOf env ≠ "")
    (hg : env.genOutcome = LLMOutcome.err e) :
    generate_analysis_script (questionOf env) (fileContentsOf env) (fileInfoOf env)
      env.genOutcome = "# Error generating script: " ++ e ∧
    (∀ s eo q2 fi2 e2, debug_and_fix_script s eo q2 fi2 (LLMOutcome.err e2) =
      "# Error debugging script: " ++ e2) ∧
    (analyze_data env).2.execCalls = 1 := by
  refine ⟨?_, fun s eo q2 fi2 e2 => rfl, (run_branch_facts env hf hq).2.2.2.1⟩
  rw [hg]
  rfl

/-- Witness for C7 at a concrete request whose generation call raises
with message "quota exceeded". -/
theorem c7_witness :
    generate_analysis_script (questionOf genErrEnv) (fileContentsOf genErrEnv)
      (fileInfoOf genErrEnv) genErrEnv.genOutcome =
      "# Error generating script: quota exceeded" ∧
    (analyze_data genErrEnv).2.execCalls = 1 := by
  have h := c7_service_failure_degrades_to_comment genErrEnv "quota exceeded" rfl
    (by decide) rfl
  exact ⟨h.1, h.2.2⟩

/-- C8: every unhandled fault raised inside the handler body is caught at
the outer boundary and shaped into the structured body carrying error
and traceback with status 500; moreover every request path whatsoever
terminates with a structured response of status 200, 400 or 500. -/
theorem c8_internal_error_boundary (env : RequestEnv) (e tb : String)
    (hf : env.fault = some (e, tb)) :
    (analyze_data env).1 =
      ⟨Json.obj [("error", Json.str ("Internal server error: " ++ e)),
        ("traceback", Json.str tb)], 500⟩ ∧
    ∀ env2 : RequestEnv, (analyze_data env2).1.status = 200 ∨
      (analyze_data env2).1.status = 400 ∨ (analyze_data env2).1.status = 500 := by
  constructor
  · rw [resp_of_fault env e tb hf]
  · intro env2
    cases hf2 : env2.fault with
    | some p =>
      obtain ⟨e2, tb2⟩ := p
      right; right
      rw [resp_of_fault env2 e2 tb2 hf2]
    | none =>
      by_cases hq : questionOf env2 = ""
      · right; left
        rw [resp_of_question_empty env2 hf2 hq]
      · left
        exact (run_branch_facts env2 hf2 hq).1

/-- Witness for C8 at a concrete request raising a disk-full fault. -/
theorem c8_witness :
    (analyze_data faultEnv).1 =
      ⟨Json.obj [("error", Json.str "Internal server error: disk full"),
        ("traceback", Json.str "Traceback: most recent call last")], 500⟩ :=
  (c8_internal_error_boundary faultEnv "disk full" "Traceback: most recent call last" rfl).1

/-- C9: the no-questions input error is produced exactly when the
question field is effectively absent or its decoded content is empty;
the question text is the read content of the last question-carrying
field; a failing read of a question text file yields the error-marker
string instead of raising; and a marker-valued question proceeds to
script generation (one generation call) rather than the input error. -/
theorem c9_read_failure_not_input_error (env : RequestEnv) (hf : env.fault = none) :
    ((analyze_data env).1.status = 400 ↔ questionOf env = "") ∧
    (questionOf env = "" ↔
      (lastQuestionRead env = none ∨ lastQuestionRead env = some "")) ∧
    (∀ f, questionFile env = some f →
      questionOf env = read_file_content (filePathOf env f) f.fileEnv 10) ∧
    (∀ path fenv e, strEndsWith path ".txt" = true → fenv.textRead = Except.error e →
      read_file_content path fenv 10 = "Error reading file: " ++ e) ∧
    (∀ e, questionOf env = "Error reading file: " ++ e →
      (analyze_data env).2.genCalls = 1) := by
  refine ⟨⟨?_, ?_⟩, ?_, ?_, ?_, ?_⟩
  · intro h400
    by_contra hne
    have h200 := (run_branch_facts env hf hne).1
    rw [h200] at h400
    exact absurd h400 (by decide)
  · intro hq
    rw [resp_of_question_empty env hf hq]
  · rw [questionOf_eq_lastRead env]
    cases hql : lastQuestionRead env with
    | none => simp
    | some s => simp
  · intro f hqf
    rw [questionOf_eq_lastRead env, lastQuestionRead, hqf]
    rfl
  · intro path fenv e htx herr
    have hcsv : strEndsWith path ".csv" = false :=
      strEndsWith_excl path ".txt" ".csv" (by decide) (by decide) htx
    simp [read_file_content, hcsv, htx, herr]
  · intro e hqe
    have hne : questionOf env ≠ "" := by
      rw [hqe]
      exact marker_ne_empty e
    exact (run_branch_facts env hf hne).2.1

/-- Witness for C9 at a concrete request whose questions.txt upload fails
to decode: the marker becomes the question and generation still runs. -/
theorem c9_witness :
    questionOf badReadEnv = "Error reading file: invalid utf-8 byte" ∧
    (analyze_data badReadEnv).2.genCalls = 1 := by
  have h := c9_read_failure_not_input_error badReadEnv rfl
  have hm : questionOf badReadEnv = "Error reading file: invalid utf-8 byte" := by
    rw [h.2.2.1 qBadFile rfl]
    rfl
  exact ⟨hm, h.2.2.2.2 "invalid utf-8 byte" hm⟩

/-- C10: for every file whose name ends in .jpg, .jpeg or .png, a
successful binary read yields a preview that is exactly the text
data:image/png;base64, followed by the base64 encoding of the file
bytes — the MIME subtype is always png regardless of the extension. -/
theorem c10_image_preview_always_png (path : String) (fenv : FileEnv) (bs : List Nat)
    (hext : strEndsWith path ".jpg" = true ∨ strEndsWith path ".jpeg" = true ∨
      strEndsWith path ".png" = true)
    (hb : fenv.binRead = Except.ok bs) :
    read_file_content path fenv 10 = "data:image/png;base64," ++ b64encode bs := by
  have hcsv : strEndsWith path ".csv" = false := by
    rcases hext with h | h | h
    · exact strEndsWith_excl path ".jpg" ".csv" (by decide) (by decide) h
    · exact strEndsWith_excl path ".jpeg" ".csv" (by decide) (by decide) h
    · exact strEndsWith_excl path ".png" ".csv" (by decide) (by decide) h
  have htxt : strEndsWith path ".txt" = false := by
    rcases hext with h | h | h
    · exact strEndsWith_excl path ".jpg" ".txt" (by decide) (by decide) h
    · exact strEndsWith_excl path ".jpeg" ".txt" (by decide) (by decide) h
    · exact strEndsWith_excl path ".png" ".txt" (by decide) (by decide) h
  have himg : (strEndsWith path ".png" || strEndsWith path ".jpg" ||
      strEndsWith path ".jpeg") = true := by
    rcases hext with h | h | h <;> simp [h]
  simp [read_file_content, hcsv, htxt, himg, hb]

/-- Witness for C10 at a concrete .jpg file with bytes [1, 2, 3]. -/
theorem c10_witness :
    read_file_content "photo.jpg" imgFenv 10 =
      "data:image/png;base64," ++ b64encode [1, 2, 3] :=
  c10_image_preview_always_png "photo.jpg" imgFenv [1, 2, 3] (Or.inl (by decide)) rfl

end TdsApp
